import Mathlib

/-!
Shallow embedding of the `ai-movies-buddy` repository, covering the TVDB
helper module (`movies_buddy/tools/mcp_servers/tvdb/helper.py`), the agent
module (`movies_buddy/agents/movies_buddy_agent.py`) and the Wikipedia
summary tool (`movies_buddy/tools/wikipedia_summary.py`).

Python dynamic values are modelled by the inductive `PyVal`; Python
exceptions by `PyExn`; fallible code returns `Except PyExn _`.  Network
effects (HTTP requests, the agent runtime, the Wikipedia API) are modelled
as explicit function parameters so that theorems can quantify over every
possible external behaviour.
-/

/-- Model of a Python dynamic value, restricted to the shapes the repository
manipulates: `None`, strings, integers, lists and string-keyed dicts. -/
inductive PyVal where
  | pyNone
  | str (s : String)
  | int (n : Int)
  | list (xs : List PyVal)
  | dict (xs : List (String × PyVal))

/-- Python truthiness for `PyVal` (`bool(v)`). -/
def PyVal.truthy : PyVal → Bool
  | .pyNone => false
  | .str s => s ≠ ""
  | .int n => n ≠ 0
  | .list xs => !xs.isEmpty
  | .dict xs => !xs.isEmpty

/-- Python `d.get(k)` on a dict modelled as an association list
(first binding wins; the repository only builds dicts with distinct keys). -/
def dictGet (xs : List (String × PyVal)) (k : String) : Option PyVal :=
  (xs.find? (fun p => p.1 = k)).map (fun p => p.2)

mutual

/-- Python `repr(v)` (string quoting is modelled without escape sequences;
the repository never formats strings containing quotes). -/
def pyRepr : PyVal → String
  | .pyNone => "None"
  | .str s => "'" ++ s ++ "'"
  | .int n => toString n
  | .list xs => "[" ++ String.intercalate ", " (pyReprList xs) ++ "]"
  | .dict xs => "\x7b" ++ String.intercalate ", " (pyReprDict xs) ++ "\x7d"

/-- Python `repr` mapped over the elements of a Python list. -/
def pyReprList : List PyVal → List String
  | [] => []
  | x :: xs => pyRepr x :: pyReprList xs

/-- Python `repr` of the `key: value` items of a Python dict. -/
def pyReprDict : List (String × PyVal) → List String
  | [] => []
  | (k, v) :: xs => ("'" ++ k ++ "': " ++ pyRepr v) :: pyReprDict xs

end

/-- Python `str(v)`, as used by f-string interpolation. -/
def pyStr : PyVal → String
  | .str s => s
  | v => pyRepr v

/-- Python whitespace as recognised by `str.strip()` (ASCII subset). -/
def isPySpace (c : Char) : Bool :=
  c = ' ' || c = '\t' || c = '\n' || c = '\r' || c = '\x0b' || c = '\x0c'

/-- Python `s.strip()`: remove leading and trailing whitespace. -/
def pyStrip (s : String) : String :=
  ⟨((s.data.dropWhile isPySpace).reverse.dropWhile isPySpace).reverse⟩

/-- Model of the Python exceptions raised by the repository. -/
inductive PyExn where
  | valueError (msg : String)
  | typeError (msg : String)
  | attributeError (msg : String)
  | lookupError (msg : String)
  | runtimeError (msg : String)
  | tvdbAuthenticationError (msg : String)
  | tvdbRequestError (msg : String)
  | missingApiKeyError (msg : String)
deriving DecidableEq, Repr

/-- Helper for Python `str.title()`: upper-case a letter that starts a run of
cased characters, lower-case the rest. -/
def titleAux : List Char → Bool → List Char
  | [], _ => []
  | c :: cs, prevCased =>
    if c.isAlpha then
      (if prevCased then c.toLower else c.toUpper) :: titleAux cs true
    else
      c :: titleAux cs false

/-- Python `s.title()`. -/
def pyTitle (s : String) : String := ⟨titleAux s.data false⟩

/-! ## Result formatter (`helper.py`, `format_search_results` / `_format_item`) -/

/-- The identifier selected by `_format_item`:
`item.get("tvdb_id") or item.get("id", "N/A")` — Python `or` falls through to
`id` whenever `tvdb_id` is absent *or falsy*. -/
def tvdb_idOf (d : List (String × PyVal)) : PyVal :=
  match dictGet d "tvdb_id" with
  | some v => if v.truthy then v else (dictGet d "id").getD (.str "N/A")
  | none => (dictGet d "id").getD (.str "N/A")

/-- The first line `_format_item` yields for a record (given the already
title-cased `type` field). -/
def headerLine (index : Nat) (d : List (String × PyVal)) (titledType : String) : String :=
  toString index ++ ". **" ++ pyStr ((dictGet d "name").getD (.str "N/A")) ++
    "** (" ++ titledType ++ ", " ++ pyStr ((dictGet d "year").getD (.str "N/A")) ++ ")"

/-- The second line `_format_item` yields for a record. -/
def idLine (d : List (String × PyVal)) : String :=
  "   - TVDB ID: " ++ pyStr (tvdb_idOf d)

/-- The `Overview` line of `_format_item`:
`overview = item.get("overview") or ""`; when truthy, f-string of
`overview[:200] + "..."` if `len(overview) > 200` else `overview`.
A truthy value without `len`/slicing raises `TypeError` as in Python. -/
def overviewLines (d : List (String × PyVal)) : Except PyExn (List String) :=
  let ov : PyVal := match dictGet d "overview" with
    | some v => if v.truthy then v else .str ""
    | none => .str ""
  if ov.truthy then
    match ov with
    | .str s =>
        .ok ["   - Overview: " ++ (if s.length > 200 then s.take 200 ++ "..." else s)]
    | .list xs =>
        .ok ["   - Overview: " ++
          (if xs.length > 200 then pyStr (.list (xs.take 200)) ++ "..." else pyStr (.list xs))]
    | .dict xs =>
        if xs.length > 200 then .error (.typeError "unhashable type: slice")
        else .ok ["   - Overview: " ++ pyStr (.dict xs)]
    | _ => .error (.typeError "object has no len")
  else
    .ok []

/-- Python `seq[:cap]` followed by iteration, for the `companies`/`genres`
fields: lists slice to their first `cap` elements, strings to their first
`cap` characters (iterated as one-character strings); other truthy values
are not subscriptable and raise `TypeError`. -/
def seqLimit (cap : Nat) (v : PyVal) : Except PyExn (List PyVal) :=
  match v with
  | .list xs => .ok (xs.take cap)
  | .str s => .ok ((s.take cap).data.map (fun c => .str (String.singleton c)))
  | _ => .error (.typeError "object is not subscriptable")

/-- One entry of the `companies`/`genres` join:
`company.get("name", "N/A") if isinstance(company, dict) else str(company)`;
a dict entry whose `name` is not a string makes `", ".join` raise. -/
def entryName (v : PyVal) : Except PyExn String :=
  match v with
  | .dict dd =>
      match dictGet dd "name" with
      | some (.str s) => .ok s
      | some _ => .error (.typeError "sequence item: expected str instance")
      | none => .ok "N/A"
  | v => .ok (pyStr v)

/-- Python `", ".join(...)` over the first `cap` entries of `v`. -/
def joinNames (cap : Nat) (v : PyVal) : Except PyExn String := do
  let entries ← seqLimit cap v
  let names ← entries.mapM entryName
  .ok (String.intercalate ", " names)

/-- The `Networks/Companies` line of `_format_item`
(`if companies := item.get("companies"):` — truthiness gate, cap 3). -/
def companiesLines (d : List (String × PyVal)) : Except PyExn (List String) :=
  match dictGet d "companies" with
  | some v =>
      if v.truthy then do
        let names ← joinNames 3 v
        .ok ["   - Networks/Companies: " ++ names]
      else .ok []
  | none => .ok []

/-- The `Genres` line of `_format_item` (truthiness gate, cap 5). -/
def genresLines (d : List (String × PyVal)) : Except PyExn (List String) :=
  match dictGet d "genres" with
  | some v =>
      if v.truthy then do
        let names ← joinNames 5 v
        .ok ["   - Genres: " ++ names]
      else .ok []
  | none => .ok []

/-- Model of `_format_item(index, item)` from `helper.py`: the lines yielded for one
search-result record.  A non-dict item has no `.get` (`AttributeError`); a
`type` value without `.title()` (any non-string) raises `AttributeError`. -/
def _format_item (index : Nat) (item : PyVal) : Except PyExn (List String) :=
  match item with
  | .dict d =>
      match (dictGet d "type").getD (.str "N/A") with
      | .str ty => do
          let ov ← overviewLines d
          let comps ← companiesLines d
          let gens ← genresLines d
          .ok (headerLine index d (pyTitle ty) :: idLine d :: (ov ++ comps ++ gens))
      | _ => .error (.attributeError "object has no attribute title")
  | _ => .error (.attributeError "object has no attribute get")

/-- Model of `for index, item in enumerate(data, start=1): lines.extend(_format_item(index, item))`. -/
def formatItems (index : Nat) : List PyVal → Except PyExn (List String)
  | [] => .ok []
  | x :: xs => do
      let a ← _format_item index x
      let b ← formatItems (index + 1) xs
      .ok (a ++ b)

/-- Model of `format_search_results(results)` from `helper.py`.
`data = results.get("data") if results else None`; falsy `data` returns the
no-results literal; a `data` list is formatted record by record and joined
with newlines; a truthy non-list `data` raises as the Python loop would. -/
def format_search_results (results : PyVal) : Except PyExn String := do
  let data ← (if results.truthy then
      match results with
      | .dict entries => Except.ok ((dictGet entries "data").getD .pyNone)
      | _ => Except.error (.attributeError "object has no attribute get")
    else Except.ok PyVal.pyNone)
  if !data.truthy then
    .ok "No results found for the search query."
  else
    match data with
    | .list xs => do
        let ls ← formatItems 1 xs
        .ok (String.intercalate "\n" (("Found " ++ toString xs.length ++ " results:\n") :: ls))
    | .int _ => .error (.typeError "object of type int has no len")
    | _ => .error (.attributeError "object has no attribute get")

/-! ## TVDB client (`helper.py`, `TVDBClient`) -/

/-- Result of one HTTP request made through `requests` with
`raise_for_status()`: either the decoded JSON body, or a
`requests.RequestException` (transport failure or non-2xx status). -/
inductive HttpResult where
  | ok (body : PyVal)
  | transportError (msg : String)

/-- State of the `TVDBClient` dataclass (`session` is an I/O handle and is not part
of the observable state; `_token` starts as `None`). -/
structure TVDBClient where
  api_key : String
  pin : String
  _token : Option PyVal := none

/-- Model of `TVDBClient.authenticate`, with the login HTTP exchange abstracted as the
`resp` parameter.  Returns the updated client on success
(`self._token = token`). -/
def TVDBClient.authenticate (c : TVDBClient) (resp : HttpResult) : Except PyExn TVDBClient :=
  match resp with
  | .transportError e =>
      .error (.tvdbAuthenticationError ("TVDB authentication failed: " ++ e))
  | .ok body =>
      match body with
      | .dict d => do
          let tokenOpt : Option PyVal ←
            match dictGet d "data" with
            | some (.dict dd) => Except.ok (dictGet dd "token")
            | none => Except.ok none
            | some _ => Except.error (.attributeError "object has no attribute get")
          match tokenOpt with
          | some tok =>
              if tok.truthy then .ok { c with _token := some tok }
              else .error (.tvdbAuthenticationError "TVDB authentication failed: token missing in response.")
          | none =>
              .error (.tvdbAuthenticationError "TVDB authentication failed: token missing in response.")
      | _ => .error (.attributeError "object has no attribute get")

/-- Truthiness of the stored token (`if not self._token`). -/
def tokenTruthy : Option PyVal → Bool
  | none => false
  | some v => v.truthy

/-- Model of `TVDBClient._headers`. -/
def TVDBClient._headers (c : TVDBClient) : Except PyExn (List (String × String)) :=
  if !tokenTruthy c._token then
    .error (.tvdbAuthenticationError "Client is not authenticated. Call authenticate() first.")
  else
    .ok [("Authorization", "Bearer " ++ pyStr ((c._token).getD .pyNone)),
         ("Content-Type", "application/json")]

/-- The `if value is not None` filter of `TVDBClient.search`. -/
def notNone : PyVal → Bool
  | .pyNone => false
  | _ => true

/-- Model of `TVDBClient.search(**params)`, with the HTTP GET abstracted as the `net`
parameter (a function of the cleaned query parameters and headers).
`self._headers()` is evaluated while building the request arguments, so an
unauthenticated client raises before `net` is consulted. -/
def TVDBClient.search (c : TVDBClient) (params : List (String × PyVal))
    (net : List (String × PyVal) → List (String × String) → HttpResult) :
    Except PyExn PyVal := do
  let clean_params := params.filter (fun p => notNone p.2)
  let headers ← c._headers
  match net clean_params headers with
  | .transportError e => .error (.tvdbRequestError ("TVDB search failed: " ++ e))
  | .ok body => .ok body

/-! ## Search tool facade (`helper.py`, `TVDBSearchTool.search`) -/

/-- The `valid_types` set of `TVDBSearchTool.search`. -/
def valid_types : List String := ["series", "movie", "person", "company"]

/-- The validation and parameter-building prefix of `TVDBSearchTool.search`
(everything before `self._client.search(**params)`).  Returns the built
parameter dict (in insertion order) together with the flag recording whether
the invalid-`content_type` warning was logged. -/
def buildSearchParams (query : String) (content_type : Option String)
    (year : Option Int) (company : Option String) (limit : Int) :
    Except PyExn (List (String × PyVal) × Bool) :=
  let q := pyStrip query
  if q = "" then
    .error (.valueError "query is required and cannot be empty.")
  else if limit < 1 ∨ limit > 20 then
    .error (.valueError "limit must be between 1 and 20.")
  else
    let params0 : List (String × PyVal) := [("query", .str q), ("limit", .int limit)]
    let step1 : List (String × PyVal) × Bool :=
      match content_type with
      | some ct =>
          if ct ≠ "" then
            let normalized := ct.toLower
            (params0 ++ [("type", .str normalized)], !valid_types.contains normalized)
          else (params0, false)
      | none => (params0, false)
    let params2 : List (String × PyVal) :=
      match year with
      | some y => step1.1 ++ [("year", .int y)]
      | none => step1.1
    let params3 : List (String × PyVal) :=
      match company with
      | some comp => if comp ≠ "" then params2 ++ [("company", .str (pyStrip comp))] else params2
      | none => params2
    .ok (params3, step1.2)

/-- Model of `TVDBSearchTool.search`, generic over the wrapped client
(`self._client.search(**params)` abstracted as `client`). -/
def TVDBSearchTool.search
    (client : List (String × PyVal) → Except PyExn PyVal)
    (query : String) (content_type : Option String)
    (year : Option Int) (company : Option String) (limit : Int) :
    Except PyExn String := do
  let pw ← buildSearchParams query content_type year company limit
  let results ← client pw.1
  format_search_results results

/-! ## API-key resolution (`movies_buddy_agent.py`, `_resolve_api_key`) -/

/-- Constant `_API_KEY_ENV_VARS` from `movies_buddy_agent.py`. -/
def API_KEY_ENV_VARS : List String := ["GEMINI_API_KEY", "GOOGLE_API_KEY", "GEMENI_API_KEY"]

/-- Python `env.get(key) or os.getenv(key, "")`: the explicit mapping wins whenever
it holds a non-empty value, otherwise the process environment is consulted. -/
def envLookup (env osenv : String → Option String) (key : String) : String :=
  let v := (env key).getD ""
  if v ≠ "" then v else (osenv key).getD ""

/-- The `for key in _API_KEY_ENV_VARS` loop of `_resolve_api_key`.  The
boolean of the result records whether the deprecated-alias warning was
logged (i.e. the chosen name is `GEMENI_API_KEY`). -/
def resolveApiKeyLoop (env osenv : String → Option String) :
    List String → Except PyExn (String × Bool)
  | [] => .error (.missingApiKeyError "Set GEMINI_API_KEY or GOOGLE_API_KEY before running.")
  | k :: ks =>
      let value := envLookup env osenv k
      if value ≠ "" then .ok (value, k = "GEMENI_API_KEY")
      else resolveApiKeyLoop env osenv ks

/-- Model of `_resolve_api_key(env)` (the process environment is the second explicit
source parameter of the model). -/
def _resolve_api_key (env osenv : String → Option String) : Except PyExn (String × Bool) :=
  resolveApiKeyLoop env osenv API_KEY_ENV_VARS

/-! ## Conversation runner (`movies_buddy_agent.py`, `run_movies_buddy_agent`) -/

/-- A chat message (`ChatMessage` TypedDict) modelled as a Python dict. -/
abbrev ChatMessage := List (String × PyVal)

/-- Type `Conversation = list[ChatMessage]`. -/
abbrev Conversation := List ChatMessage

/-- Model of `_extract_final_output(conversation, fallback=...)`.  A truthy non-string
text part makes `"\n".join` raise `TypeError`, as in Python; that exception
is handled by the caller. -/
def _extract_final_output (conversation : Conversation) (fallback : String) :
    Except PyExn String :=
  if fallback ≠ "" then .ok fallback
  else
    match conversation.getLast? with
    | none => .ok ""
    | some m =>
        match (dictGet m "content").getD (.str "") with
        | .str s => .ok s
        | .list parts =>
            let texts : List PyVal := parts.filterMap (fun p =>
              match p with
              | .dict pd =>
                  match dictGet pd "type" with
                  | some (.str t) => if t = "text" then some ((dictGet pd "text").getD (.str "")) else none
                  | _ => none
              | _ => none)
            do
              let kept ← texts.foldrM (fun v acc =>
                if v.truthy then
                  match v with
                  | .str s => Except.ok (s :: acc)
                  | _ => Except.error (.typeError "sequence item: expected str instance")
                else Except.ok acc) []
              .ok (String.intercalate "\n" kept)
        | _ => .ok ""

/-- Outcome of awaiting `Runner.run` under `asyncio.wait_for`: normal
completion (with `result.to_input_list()` and the `final_output` fallback
string), `asyncio.TimeoutError`, or any other exception. -/
inductive RunOutcome where
  | success (conv : Conversation) (fallback : String)
  | timeout
  | failure (msg : String)

/-- Model of `run_movies_buddy_agent(user_input, conversation_history=..., timeout_s=...)`.
Agent assembly (`create_movies_buddy_agent`) is abstracted as `setup`
(it can raise `MissingApiKeyError`, which propagates); the awaited runtime
invocation is abstracted as `outcome`, a function of the working message
list.  The working list is a fresh copy of the prior history plus the new
user message; on timeout the original history is returned unchanged. -/
def run_movies_buddy_agent (user_input : String)
    (conversation_history : Option Conversation)
    (setup : Except PyExn Unit)
    (outcome : Conversation → RunOutcome) :
    Except PyExn (Conversation × String) := do
  setup
  let messages : Conversation :=
    (conversation_history.getD []) ++ [[("role", .str "user"), ("content", .str user_input)]]
  match outcome messages with
  | .timeout => .ok (conversation_history.getD [], "Request timed out.")
  | .failure _ => .ok (conversation_history.getD [], "The agent failed to run.")
  | .success conv fb =>
      match _extract_final_output conv fb with
      | .ok s => .ok (conv, s)
      | .error _ => .ok (conversation_history.getD [], "The agent failed to run.")

/-! ## Wikipedia summary tool (`wikipedia_summary.py`) -/

/-- Observable state of a `wikipediaapi` page object. -/
structure WikiPage where
  pageExists : Bool
  title : String
  summary : String

/-- Result of looking a title up through `wikipediaapi`: a page object, or an
unexpected transport/parsing exception. -/
inductive WikiResult where
  | page (p : WikiPage)
  | transportError (msg : String)

/-- One character of `json.dumps(..., ensure_ascii=False)` string encoding. -/
def jsonEscapeChar (c : Char) : String :=
  if c = '"' then "\\\""
  else if c = '\\' then "\\\\"
  else if c = '\n' then "\\n"
  else if c = '\t' then "\\t"
  else if c = '\r' then "\\r"
  else if c = (Char.ofNat 8) then "\\b"
  else if c = (Char.ofNat 12) then "\\f"
  else if c.toNat < 32 then
    "\\u00" ++ String.singleton (Nat.digitChar (c.toNat / 16)) ++
      String.singleton (Nat.digitChar (c.toNat % 16))
  else String.singleton c

/-- JSON encoding of a string literal. -/
def jsonString (s : String) : String :=
  "\"" ++ String.join (s.data.map jsonEscapeChar) ++ "\""

/-- Model of `json.dumps({"title": t, "summary": s}, ensure_ascii=False)`. -/
def dumpsTitleSummary (t s : String) : String :=
  "\x7b\"title\": " ++ jsonString t ++ ", \"summary\": " ++ jsonString s ++ "\x7d"

/-- Model of `_fetch_wikipedia_summary(title)` applied to the fetched page object:
raises `LookupError` when the page does not exist or its summary is empty. -/
def _fetch_wikipedia_summary (title : String) (p : WikiPage) :
    Except PyExn (String × String) :=
  if p.pageExists && p.summary ≠ "" then .ok (p.title, p.summary)
  else .error (.lookupError ("No Wikipedia summary found for '" ++ title ++ "'."))

/-- The message carried by a modelled exception. -/
def PyExn.msg : PyExn → String
  | .valueError m | .typeError m | .attributeError m | .lookupError m
  | .runtimeError m | .tvdbAuthenticationError m | .tvdbRequestError m
  | .missingApiKeyError m => m

/-- Model of `get_series_movies_summary(title)` with the Wikipedia lookup abstracted
as `wiki` (a function of the stripped title).  `LookupError` becomes the
fallback JSON payload built from the *original* title; any other exception
is re-raised as `RuntimeError`. -/
def get_series_movies_summary (title : String) (wiki : String → WikiResult) :
    Except PyExn String :=
  match wiki (pyStrip title) with
  | .transportError m =>
      .error (.runtimeError ("Wikipedia summary retrieval failed: " ++ m))
  | .page p =>
      match _fetch_wikipedia_summary title p with
      | .ok ts => .ok (dumpsTitleSummary ts.1 ts.2)
      | .error (.lookupError _) =>
          .ok (dumpsTitleSummary title ("No Wikipedia summary found for '" ++ title ++ "'."))
      | .error e =>
          .error (.runtimeError ("Wikipedia summary retrieval failed: " ++ e.msg))

/-! ## Claim theorems -/

/-- C1: `TVDBSearchTool.search` rejects an empty/whitespace-only query (after
trimming) with `ValueError "query is required and cannot be empty."`, and an
out-of-range limit with `ValueError "limit must be between 1 and 20."`,
uniformly in the wrapped client (hence before any network call); the query
check precedes the limit check. -/
theorem search_rejects_invalid_params (query : String) (content_type : Option String)
    (year : Option Int) (company : Option String) (limit : Int) :
    (pyStrip query = "" →
      ∀ client, TVDBSearchTool.search client query content_type year company limit =
        .error (.valueError "query is required and cannot be empty.")) ∧
    (pyStrip query ≠ "" → (limit < 1 ∨ limit > 20) →
      ∀ client, TVDBSearchTool.search client query content_type year company limit =
        .error (.valueError "limit must be between 1 and 20.")) := by
  constructor
  · intro h client
    simp [TVDBSearchTool.search, buildSearchParams, h, Bind.bind, Except.bind]
  · intro h1 h2 client
    simp [TVDBSearchTool.search, buildSearchParams, h1, h2, Bind.bind, Except.bind]

/-- Witness for C1: a whitespace-only query (with an invalid limit, showing
the query check fires first) and an out-of-range limit are both rejected. -/
theorem search_rejects_invalid_params_witness :
    TVDBSearchTool.search (fun _ => .ok .pyNone) "   " none none none 0 =
      .error (.valueError "query is required and cannot be empty.") ∧
    TVDBSearchTool.search (fun _ => .ok .pyNone) "dune" none none none 0 =
      .error (.valueError "limit must be between 1 and 20.") :=
  ⟨(search_rejects_invalid_params "   " none none none 0).1 (by decide) _,
   (search_rejects_invalid_params "dune" none none none 0).2 (by decide) (by decide) _⟩

/-- C2: when the awaited agent invocation times out, `run_movies_buddy_agent`
returns exactly the original prior history (the working list with the
appended user message is discarded) paired with `"Request timed out."`. -/
theorem run_timeout_returns_original_history (user_input : String)
    (conversation_history : Option Conversation)
    (setup : Except PyExn Unit)
    (outcome : Conversation → RunOutcome)
    (hsetup : setup = .ok ())
    (h : outcome ((conversation_history.getD []) ++
          [[("role", PyVal.str "user"), ("content", PyVal.str user_input)]]) = .timeout) :
    run_movies_buddy_agent user_input conversation_history setup outcome =
      .ok (conversation_history.getD [], "Request timed out.") := by
  simp [run_movies_buddy_agent, hsetup, h, Bind.bind, Except.bind]

/-- Witness for C2: a one-message prior history is returned unchanged on
timeout. -/
theorem run_timeout_returns_original_history_witness :
    run_movies_buddy_agent "hello" (some [[("role", PyVal.str "assistant"), ("content", PyVal.str "hi")]])
        (.ok ()) (fun _ => .timeout) =
      .ok ([[("role", PyVal.str "assistant"), ("content", PyVal.str "hi")]], "Request timed out.") :=
  run_timeout_returns_original_history "hello"
    (some [[("role", PyVal.str "assistant"), ("content", PyVal.str "hi")]])
    (.ok ()) (fun _ => .timeout) rfl rfl

/-- C4: a response that is empty/absent, or whose `data` field is absent,
null, or an empty list, formats to exactly the no-results literal, whatever
else the response contains. -/
theorem format_no_results (results : PyVal)
    (h : results = .pyNone ∨ results = .dict [] ∨
      (∃ entries, results = .dict entries ∧
        (dictGet entries "data" = none ∨ dictGet entries "data" = some .pyNone ∨
         dictGet entries "data" = some (.list [])))) :
    format_search_results results = .ok "No results found for the search query." := by
  rcases h with h | h | ⟨entries, rfl, hd⟩
  · subst h; rfl
  · subst h; rfl
  · cases entries with
    | nil => rfl
    | cons e es =>
        rcases hd with hd | hd | hd <;>
          simp [format_search_results, PyVal.truthy, hd, Bind.bind, Except.bind]

/-- Witness for C4: a nonempty response whose `data` is an empty list. -/
theorem format_no_results_witness :
    format_search_results (.dict [("status", .str "ok"), ("data", .list [])]) =
      .ok "No results found for the search query." :=
  format_no_results (.dict [("status", .str "ok"), ("data", .list [])])
    (Or.inr (Or.inr ⟨_, rfl, Or.inr (Or.inr rfl)⟩))

/-- The candidate loop of `_resolve_api_key` is exactly "first name whose
layered lookup is non-empty wins" (helper for C3). -/
theorem resolveApiKeyLoop_eq_find (env osenv : String → Option String) (ks : List String) :
    resolveApiKeyLoop env osenv ks =
      match ks.find? (fun k => envLookup env osenv k != "") with
      | some k => .ok (envLookup env osenv k, decide (k = "GEMENI_API_KEY"))
      | none => .error (.missingApiKeyError "Set GEMINI_API_KEY or GOOGLE_API_KEY before running.") := by
  induction ks with
  | nil => rfl
  | cons k ks ih =>
      by_cases h : envLookup env osenv k = ""
      · simp [resolveApiKeyLoop, List.find?, h, ih]
      · have hb : (envLookup env osenv k != "") = true := bne_iff_ne.mpr h
        simp [resolveApiKeyLoop, List.find?, h, hb]

/-- C3: `_resolve_api_key` returns the value of the first candidate name
(`GEMINI_API_KEY`, `GOOGLE_API_KEY`, `GEMENI_API_KEY`) whose layered lookup
is non-empty, warning exactly when the chosen name is the deprecated
misspelled alias, and raising `MissingApiKeyError` when no candidate yields
a non-empty value; the per-name lookup prefers the explicit mapping over the
process environment. -/
theorem resolve_api_key_first_nonempty (env osenv : String → Option String) :
    (_resolve_api_key env osenv =
      match API_KEY_ENV_VARS.find? (fun k => envLookup env osenv k != "") with
      | some k => .ok (envLookup env osenv k, decide (k = "GEMENI_API_KEY"))
      | none => .error (.missingApiKeyError "Set GEMINI_API_KEY or GOOGLE_API_KEY before running.")) ∧
    (∀ k v, env k = some v → v ≠ "" → envLookup env osenv k = v) := by
  refine ⟨resolveApiKeyLoop_eq_find env osenv API_KEY_ENV_VARS, ?_⟩
  intro k v hk hv
  simp [envLookup, hk, hv]

/-- Environment mapping containing only the deprecated misspelled alias. -/
def aliasOnlyEnv : String → Option String :=
  fun k => if k = "GEMENI_API_KEY" then some "legacy-key" else none

/-- Empty process environment. -/
def emptyEnv : String → Option String := fun _ => none

/-- Witness for C3: with only the deprecated alias set, resolution succeeds
with its value and the migration warning; with nothing set, it fails with
`MissingApiKeyError`; the explicit mapping is preferred for a name it binds
non-emptily. -/
theorem resolve_api_key_first_nonempty_witness :
    _resolve_api_key aliasOnlyEnv emptyEnv = .ok ("legacy-key", true) ∧
    _resolve_api_key emptyEnv emptyEnv =
      .error (.missingApiKeyError "Set GEMINI_API_KEY or GOOGLE_API_KEY before running.") ∧
    envLookup aliasOnlyEnv (fun _ => some "other") "GEMENI_API_KEY" = "legacy-key" :=
  ⟨(resolve_api_key_first_nonempty aliasOnlyEnv emptyEnv).1.trans (by rfl),
   (resolve_api_key_first_nonempty emptyEnv emptyEnv).1.trans (by rfl),
   (resolve_api_key_first_nonempty aliasOnlyEnv (fun _ => some "other")).2
     "GEMENI_API_KEY" "legacy-key" rfl (by decide)⟩

/-- C9: a missing page or empty summary makes `get_series_movies_summary`
return (not raise) the JSON payload built from the *original* input title
with the `No Wikipedia summary found` message, while an unexpected
transport/parsing failure is raised as `RuntimeError`. -/
theorem summary_fallback (title : String) (p : WikiPage)
    (h : p.pageExists = false ∨ p.summary = "") :
    (∀ wiki : String → WikiResult, wiki (pyStrip title) = .page p →
      get_series_movies_summary title wiki =
        .ok (dumpsTitleSummary title ("No Wikipedia summary found for '" ++ title ++ "'."))) ∧
    (∀ (wiki : String → WikiResult) (m : String), wiki (pyStrip title) = .transportError m →
      get_series_movies_summary title wiki =
        .error (.runtimeError ("Wikipedia summary retrieval failed: " ++ m))) := by
  constructor
  · intro wiki hw
    rcases h with h | h <;>
      simp [get_series_movies_summary, hw, _fetch_wikipedia_summary, h]
  · intro wiki m hw
    simp [get_series_movies_summary, hw]

/-- Witness for C9: a nonexistent page yields the fallback JSON for the
original (untrimmed) title; a transport failure raises `RuntimeError`. -/
theorem summary_fallback_witness :
    get_series_movies_summary "Foundation " (fun _ => .page ⟨false, "", ""⟩) =
      .ok "\x7b\"title\": \"Foundation \", \"summary\": \"No Wikipedia summary found for 'Foundation '.\"\x7d" ∧
    get_series_movies_summary "Foundation " (fun _ => .transportError "boom") =
      .error (.runtimeError "Wikipedia summary retrieval failed: boom") :=
  ⟨((summary_fallback "Foundation " ⟨false, "", ""⟩ (Or.inl rfl)).1
      (fun _ => .page ⟨false, "", ""⟩) rfl).trans (by rfl),
   (summary_fallback "Foundation " ⟨false, "", ""⟩ (Or.inl rfl)).2
      (fun _ => .transportError "boom") "boom" rfl⟩

/-- C7: with a valid query and limit and a non-empty `content_type`, the
facade lower-cases it and passes it through under the `"type"` key, warning
exactly when it is outside `{series, movie, person, company}`; the call is
never rejected on account of `content_type` and proceeds to the client with
the built parameters. -/
theorem content_type_passthrough (query ct : String) (year : Option Int)
    (company : Option String) (limit : Int)
    (client : List (String × PyVal) → Except PyExn PyVal)
    (hq : pyStrip query ≠ "") (hl : ¬(limit < 1 ∨ limit > 20)) (hct : ct ≠ "") :
    ∃ params warned,
      buildSearchParams query (some ct) year company limit = .ok (params, warned) ∧
      dictGet params "type" = some (.str ct.toLower) ∧
      warned = !valid_types.contains ct.toLower ∧
      TVDBSearchTool.search client query (some ct) year company limit =
        (do
          let results ← client params
          format_search_results results) := by
  rcases year with _ | y
  · rcases company with _ | comp
    · have hb : buildSearchParams query (some ct) none none limit =
          .ok ([("query", .str (pyStrip query)), ("limit", .int limit),
                ("type", .str ct.toLower)], !valid_types.contains ct.toLower) := by
        simp only [buildSearchParams]
        rw [if_neg hq, if_neg hl, if_pos hct]; rfl
      exact ⟨_, _, hb, rfl, rfl, by simp only [TVDBSearchTool.search, hb]; rfl⟩
    · by_cases hc : comp ≠ ""
      · have hb : buildSearchParams query (some ct) none (some comp) limit =
            .ok ([("query", .str (pyStrip query)), ("limit", .int limit),
                  ("type", .str ct.toLower), ("company", .str (pyStrip comp))],
                 !valid_types.contains ct.toLower) := by
          simp only [buildSearchParams]
          rw [if_neg hq, if_neg hl, if_pos hct, if_pos hc]; rfl
        exact ⟨_, _, hb, rfl, rfl, by simp only [TVDBSearchTool.search, hb]; rfl⟩
      · have hb : buildSearchParams query (some ct) none (some comp) limit =
            .ok ([("query", .str (pyStrip query)), ("limit", .int limit),
                  ("type", .str ct.toLower)], !valid_types.contains ct.toLower) := by
          simp only [buildSearchParams]
          rw [if_neg hq, if_neg hl, if_pos hct, if_neg hc]; rfl
        exact ⟨_, _, hb, rfl, rfl, by simp only [TVDBSearchTool.search, hb]; rfl⟩
  · rcases company with _ | comp
    · have hb : buildSearchParams query (some ct) (some y) none limit =
          .ok ([("query", .str (pyStrip query)), ("limit", .int limit),
                ("type", .str ct.toLower), ("year", .int y)],
               !valid_types.contains ct.toLower) := by
        simp only [buildSearchParams]
        rw [if_neg hq, if_neg hl, if_pos hct]; rfl
      exact ⟨_, _, hb, rfl, rfl, by simp only [TVDBSearchTool.search, hb]; rfl⟩
    · by_cases hc : comp ≠ ""
      · have hb : buildSearchParams query (some ct) (some y) (some comp) limit =
            .ok ([("query", .str (pyStrip query)), ("limit", .int limit),
                  ("type", .str ct.toLower), ("year", .int y),
                  ("company", .str (pyStrip comp))],
                 !valid_types.contains ct.toLower) := by
          simp only [buildSearchParams]
          rw [if_neg hq, if_neg hl, if_pos hct, if_pos hc]; rfl
        exact ⟨_, _, hb, rfl, rfl, by simp only [TVDBSearchTool.search, hb]; rfl⟩
      · have hb : buildSearchParams query (some ct) (some y) (some comp) limit =
            .ok ([("query", .str (pyStrip query)), ("limit", .int limit),
                  ("type", .str ct.toLower), ("year", .int y)],
                 !valid_types.contains ct.toLower) := by
          simp only [buildSearchParams]
          rw [if_neg hq, if_neg hl, if_pos hct, if_neg hc]; rfl
        exact ⟨_, _, hb, rfl, rfl, by simp only [TVDBSearchTool.search, hb]; rfl⟩

/-- Witness for C7: an invalid `content_type` `"BANANA"` is lower-cased,
flagged by a warning, passed through under `"type"`, and the call still
reaches the client. -/
theorem content_type_passthrough_witness :
    ∃ params warned,
      buildSearchParams "dune" (some "BANANA") none none 10 = .ok (params, warned) ∧
      dictGet params "type" = some (.str "BANANA".toLower) ∧
      warned = !valid_types.contains "BANANA".toLower ∧
      TVDBSearchTool.search (fun _ => .ok (.dict [])) "dune" (some "BANANA") none none 10 =
        (do
          let results ← (fun _ => Except.ok (PyVal.dict [])) params
          format_search_results results) :=
  content_type_passthrough "dune" "BANANA" none none 10 (fun _ => .ok (.dict []))
    (by decide) (by decide) (by decide)

/-- C10: an empty-string `content_type` is treated exactly like an absent
one — no `"type"` key is added and no warning is logged — and an
empty-string `company` is omitted, while a non-empty `company` is trimmed
and included under the `"company"` key. -/
theorem empty_optional_params (query : String) (year : Option Int) (limit : Int)
    (hq : pyStrip query ≠ "") (hl : ¬(limit < 1 ∨ limit > 20)) :
    (∀ company, buildSearchParams query (some "") year company limit =
        buildSearchParams query none year company limit) ∧
    (∀ company, ∃ params,
        buildSearchParams query (some "") year company limit = .ok (params, false) ∧
        dictGet params "type" = none) ∧
    (∀ content_type, buildSearchParams query content_type year (some "") limit =
        buildSearchParams query content_type year none limit) ∧
    (∀ content_type comp, comp ≠ "" →
        ∃ pw, buildSearchParams query content_type year (some comp) limit = .ok pw ∧
          dictGet pw.1 "company" = some (.str (pyStrip comp))) := by
  refine ⟨fun company => rfl, ?_, fun content_type => rfl, ?_⟩
  · intro company
    rcases year with _ | y <;> rcases company with _ | comp
    · exact ⟨[("query", .str (pyStrip query)), ("limit", .int limit)],
        by simp only [buildSearchParams]; rw [if_neg hq, if_neg hl]; rfl, rfl⟩
    · by_cases hc : comp ≠ ""
      · exact ⟨[("query", .str (pyStrip query)), ("limit", .int limit),
          ("company", .str (pyStrip comp))],
          by simp only [buildSearchParams]; rw [if_neg hq, if_neg hl, if_pos hc]; rfl, rfl⟩
      · exact ⟨[("query", .str (pyStrip query)), ("limit", .int limit)],
          by simp only [buildSearchParams]; rw [if_neg hq, if_neg hl, if_neg hc]; rfl, rfl⟩
    · exact ⟨[("query", .str (pyStrip query)), ("limit", .int limit), ("year", .int y)],
        by simp only [buildSearchParams]; rw [if_neg hq, if_neg hl]; rfl, rfl⟩
    · by_cases hc : comp ≠ ""
      · exact ⟨[("query", .str (pyStrip query)), ("limit", .int limit), ("year", .int y),
          ("company", .str (pyStrip comp))],
          by simp only [buildSearchParams]; rw [if_neg hq, if_neg hl, if_pos hc]; rfl, rfl⟩
      · exact ⟨[("query", .str (pyStrip query)), ("limit", .int limit), ("year", .int y)],
          by simp only [buildSearchParams]; rw [if_neg hq, if_neg hl, if_neg hc]; rfl, rfl⟩
  · intro content_type comp hcomp
    rcases content_type with _ | ct
    · rcases year with _ | y
      · exact ⟨([("query", .str (pyStrip query)), ("limit", .int limit),
          ("company", .str (pyStrip comp))], false),
          by simp only [buildSearchParams]; rw [if_neg hq, if_neg hl, if_pos hcomp]; rfl, rfl⟩
      · exact ⟨([("query", .str (pyStrip query)), ("limit", .int limit), ("year", .int y),
          ("company", .str (pyStrip comp))], false),
          by simp only [buildSearchParams]; rw [if_neg hq, if_neg hl, if_pos hcomp]; rfl, rfl⟩
    · by_cases hct : ct ≠ ""
      · rcases year with _ | y
        · exact ⟨([("query", .str (pyStrip query)), ("limit", .int limit),
            ("type", .str ct.toLower), ("company", .str (pyStrip comp))],
            !valid_types.contains ct.toLower),
            by simp only [buildSearchParams]; rw [if_neg hq, if_neg hl, if_pos hct, if_pos hcomp]; rfl, rfl⟩
        · exact ⟨([("query", .str (pyStrip query)), ("limit", .int limit),
            ("type", .str ct.toLower), ("year", .int y), ("company", .str (pyStrip comp))],
            !valid_types.contains ct.toLower),
            by simp only [buildSearchParams]; rw [if_neg hq, if_neg hl, if_pos hct, if_pos hcomp]; rfl, rfl⟩
      · rcases year with _ | y
        · exact ⟨([("query", .str (pyStrip query)), ("limit", .int limit),
            ("company", .str (pyStrip comp))], false),
            by simp only [buildSearchParams]; rw [if_neg hq, if_neg hl, if_neg hct, if_pos hcomp]; rfl, rfl⟩
        · exact ⟨([("query", .str (pyStrip query)), ("limit", .int limit), ("year", .int y),
            ("company", .str (pyStrip comp))], false),
            by simp only [buildSearchParams]; rw [if_neg hq, if_neg hl, if_neg hct, if_pos hcomp]; rfl, rfl⟩

/-- Witness for C10: with a valid query and limit, an empty `content_type`
adds no `"type"` key, an empty `company` is dropped, and `" ACME "` is
trimmed into the parameters. -/
theorem empty_optional_params_witness :
    buildSearchParams "dune" (some "") none (some "") 10 =
      buildSearchParams "dune" none none none 10 ∧
    (∃ params, buildSearchParams "dune" (some "") none (some "") 10 = .ok (params, false) ∧
      dictGet params "type" = none) ∧
    (∃ pw, buildSearchParams "dune" none none (some " ACME ") 10 = .ok pw ∧
      dictGet pw.1 "company" = some (.str (pyStrip " ACME "))) :=
  ⟨((empty_optional_params "dune" none 10 (by decide) (by decide)).1 (some "")).trans
      ((empty_optional_params "dune" none 10 (by decide) (by decide)).2.2.1 none),
   (empty_optional_params "dune" none 10 (by decide) (by decide)).2.1 (some ""),
   (empty_optional_params "dune" none 10 (by decide) (by decide)).2.2.2 none " ACME " (by decide)⟩

/-- C8: a client with no stored token fails `search` with the
not-authenticated `TVDBAuthenticationError` uniformly in the network
behaviour (hence before any request is issued); a successful `authenticate`
stores the token and a subsequent `search` issues the request and reflects
its outcome. -/
theorem client_requires_authentication :
    (∀ (c : TVDBClient) (params : List (String × PyVal)) net, c._token = none →
      c.search params net =
        .error (.tvdbAuthenticationError "Client is not authenticated. Call authenticate() first.")) ∧
    (∀ (c : TVDBClient) (d dd : List (String × PyVal)) (tok : PyVal),
      dictGet d "data" = some (.dict dd) → dictGet dd "token" = some tok →
      tok.truthy = true →
      c.authenticate (.ok (.dict d)) = .ok { c with _token := some tok } ∧
      ∀ (params : List (String × PyVal)) net,
        TVDBClient.search { c with _token := some tok } params net =
          match net (params.filter (fun p => notNone p.2))
              [("Authorization", "Bearer " ++ pyStr tok), ("Content-Type", "application/json")] with
          | .transportError e => .error (.tvdbRequestError ("TVDB search failed: " ++ e))
          | .ok body => .ok body) := by
  constructor
  · intro c params net htok
    simp [TVDBClient.search, TVDBClient._headers, tokenTruthy, htok, Bind.bind, Except.bind]
  · intro c d dd tok hd htok htruthy
    constructor
    · simp [TVDBClient.authenticate, hd, htok, htruthy, Bind.bind, Except.bind]
    · intro params net
      simp [TVDBClient.search, TVDBClient._headers, tokenTruthy, htruthy,
        Bind.bind, Except.bind]

/-- Witness for C8: a fresh client rejects `search`; after authenticating
against a login body carrying token `"tok123"`, the search goes through to
the (stubbed) network and returns its body. -/
theorem client_requires_authentication_witness :
    TVDBClient.search ⟨"key", "pin", none⟩ [("query", .str "dune")] (fun _ _ => .ok (.dict [])) =
      .error (.tvdbAuthenticationError "Client is not authenticated. Call authenticate() first.") ∧
    TVDBClient.authenticate ⟨"key", "pin", none⟩
        (.ok (.dict [("data", .dict [("token", .str "tok123")])])) =
      .ok ⟨"key", "pin", some (.str "tok123")⟩ ∧
    TVDBClient.search ⟨"key", "pin", some (.str "tok123")⟩ [("query", .str "dune")]
        (fun _ _ => .ok (.dict [("data", .list [])])) =
      .ok (.dict [("data", .list [])]) :=
  ⟨client_requires_authentication.1 ⟨"key", "pin", none⟩ [("query", .str "dune")]
      (fun _ _ => .ok (.dict [])) rfl,
   (client_requires_authentication.2 ⟨"key", "pin", none⟩
      [("data", .dict [("token", .str "tok123")])] [("token", .str "tok123")]
      (.str "tok123") rfl rfl (by decide)).1,
   ((client_requires_authentication.2 ⟨"key", "pin", none⟩
      [("data", .dict [("token", .str "tok123")])] [("token", .str "tok123")]
      (.str "tok123") rfl rfl (by decide)).2 [("query", .str "dune")]
      (fun _ _ => .ok (.dict [("data", .list [])]))).trans rfl⟩

/-- Shape of a successful `_format_item`: the record is a dict, its `type`
field (defaulted) is a string, the three optional sections succeeded, and
the lines are the numbered header, the ID line, then the sections in order. -/
theorem _format_item_ok_decomp (i : Nat) (item : PyVal) (ls : List String)
    (h : _format_item i item = .ok ls) :
    ∃ d ty ov cs gs, item = .dict d ∧
      (dictGet d "type").getD (.str "N/A") = .str ty ∧
      overviewLines d = .ok ov ∧ companiesLines d = .ok cs ∧ genresLines d = .ok gs ∧
      ls = headerLine i d (pyTitle ty) :: idLine d :: (ov ++ cs ++ gs) := by
  cases item with
  | dict d =>
      cases hty : (dictGet d "type").getD (.str "N/A") with
      | str ty =>
          rw [_format_item, hty] at h
          rcases hov : overviewLines d with e | ov <;> rw [hov] at h <;>
            simp only [Bind.bind, Except.bind] at h
          · cases h
          rcases hcs : companiesLines d with e | cs <;> rw [hcs] at h
          · cases h
          rcases hgs : genresLines d with e | gs <;> rw [hgs] at h
          · cases h
          cases h
          exact ⟨d, ty, ov, cs, gs, rfl, hty, hov, hcs, hgs, rfl⟩
      | pyNone => rw [_format_item, hty] at h; cases h
      | int n => rw [_format_item, hty] at h; cases h
      | list xs => rw [_format_item, hty] at h; cases h
      | dict xs => rw [_format_item, hty] at h; cases h
  | pyNone => cases h
  | str s => cases h
  | int n => cases h
  | list xs => cases h

/-- C5: when a record's `overview` is a non-empty string, the emitted
Overview line (third line of the record's block) carries it verbatim when
its length is at most 200 characters and truncates it to the first 200
characters plus `"..."` when longer. -/
theorem overview_truncation (i : Nat) (d : List (String × PyVal)) (s : String)
    (ls : List String)
    (hov : dictGet d "overview" = some (.str s)) (hs : s ≠ "")
    (hok : _format_item i (.dict d) = .ok ls) :
    ls.get? 2 = some ("   - Overview: " ++
      (if s.length > 200 then s.take 200 ++ "..." else s)) := by
  obtain ⟨d', ty, ov, cs, gs, heq, hty, hov', hcs, hgs, hls⟩ :=
    _format_item_ok_decomp i (.dict d) ls hok
  cases heq
  have hcomp : overviewLines d = .ok ["   - Overview: " ++
      (if s.length > 200 then s.take 200 ++ "..." else s)] := by
    simp [overviewLines, hov, PyVal.truthy, hs]
  rw [hcomp] at hov'
  cases hov'
  subst hls
  rfl

/-- A 201-character overview. -/
def witOverview201 : String := ⟨List.replicate 201 'a'⟩

/-- Record carrying the 201-character overview. -/
def witRecord201 : List (String × PyVal) := [("overview", .str witOverview201)]

/-- Lines `_format_item` yields for `witRecord201` (truncated + ellipsis). -/
def witLines201 : List String :=
  ["1. **N/A** (N/A, N/A)", "   - TVDB ID: N/A",
   "   - Overview: " ++ String.mk (List.replicate 200 'a') ++ "..."]

/-- A 200-character overview. -/
def witOverview200 : String := ⟨List.replicate 200 'a'⟩

/-- Record carrying the 200-character overview. -/
def witRecord200 : List (String × PyVal) := [("overview", .str witOverview200)]

/-- Lines `_format_item` yields for `witRecord200` (verbatim, no ellipsis). -/
def witLines200 : List String :=
  ["1. **N/A** (N/A, N/A)", "   - TVDB ID: N/A",
   "   - Overview: " ++ String.mk (List.replicate 200 'a')]

set_option maxRecDepth 10000 in
/-- Witness for C5: a 201-character overview is truncated to 200 characters
plus `"..."`; a 200-character overview is emitted verbatim. -/
theorem overview_truncation_witness :
    witLines201.get? 2 = some ("   - Overview: " ++
      (if witOverview201.length > 200 then witOverview201.take 200 ++ "..." else witOverview201)) ∧
    witLines200.get? 2 = some ("   - Overview: " ++
      (if witOverview200.length > 200 then witOverview200.take 200 ++ "..." else witOverview200)) :=
  ⟨overview_truncation 1 witRecord201 witOverview201 witLines201 rfl (by decide) rfl,
   overview_truncation 1 witRecord200 witOverview200 witLines200 rfl (by decide) rfl⟩

/-- Function `String.intercalate.go` over a string that is already a concatenation
peels off the prefix (helper for the join decomposition). -/
theorem intercalate_go_prefix (s x y : String) (t : List String) :
    String.intercalate.go (x ++ y) s t = x ++ String.intercalate.go y s t := by
  induction t generalizing y with
  | nil => rfl
  | cons a t ih =>
      simp only [String.intercalate.go]
      have h : x ++ y ++ s ++ a = x ++ (y ++ s ++ a) := by
        simp [String.append_assoc]
      rw [h, ih]

/-- Python `"\n".join` over at least two lines starts with the first line and the
separator. -/
theorem intercalate_cons₂ (s a b : String) (t : List String) :
    String.intercalate s (a :: b :: t) = a ++ s ++ String.intercalate s (b :: t) := by
  simp only [String.intercalate, String.intercalate.go]
  rw [show a ++ s ++ b = (a ++ s) ++ b from rfl, intercalate_go_prefix s (a ++ s) b t]

/-- A successful `formatItems start items` is the in-order concatenation of
one block per record, block `k` coming from `_format_item (start + k)` on
record `k`. -/
theorem formatItems_ok_decomp (items : List PyVal) (start : Nat) (ls : List String)
    (h : formatItems start items = .ok ls) :
    ∃ bs : List (List String), bs.length = items.length ∧ ls = bs.flatten ∧
      ∀ k, k < items.length →
        ∃ item blk, items.get? k = some item ∧ bs.get? k = some blk ∧
          _format_item (start + k) item = .ok blk := by
  induction items generalizing start ls with
  | nil =>
      cases h
      exact ⟨[], rfl, rfl, fun k hk => absurd hk (by simp)⟩
  | cons x xs ih =>
      simp only [formatItems, Bind.bind, Except.bind] at h
      rcases ha : _format_item start x with e | a <;> rw [ha] at h
      · cases h
      rcases hb : formatItems (start + 1) xs with e | b <;> rw [hb] at h
      · cases h
      cases h
      obtain ⟨bs, hlen, hjoin, hk⟩ := ih (start + 1) b hb
      refine ⟨a :: bs, by simp [hlen], by simp [hjoin], ?_⟩
      intro k hk'
      cases k with
      | zero => exact ⟨x, a, rfl, rfl, ha⟩
      | succ k =>
          obtain ⟨item, blk, h1, h2, h3⟩ := hk k (by simpa using hk')
          exact ⟨item, blk, h1, h2, by
            rw [show start + (k + 1) = start + 1 + k by omega]; exact h3⟩

/-- The numbered header of a block starts with its 1-based index. -/
theorem headerLine_numbered (i : Nat) (d : List (String × PyVal)) (t : String) :
    ∃ tl, headerLine i d t = toString i ++ ". **" ++ tl :=
  ⟨pyStr ((dictGet d "name").getD (.str "N/A")) ++
    ("** (" ++ (t ++ (", " ++ (pyStr ((dictGet d "year").getD (.str "N/A")) ++ ")")))),
   by simp [headerLine, String.append_assoc]⟩

set_option maxHeartbeats 1000000 in
/-- C6 (amended): for a response whose `data` is a non-empty list of N
records, the output is the `Found N results:` header, a blank line, then
exactly N numbered blocks in input order; each block's ID line shows the
`tvdb_id` value when it is present and truthy, otherwise the `id` value,
defaulting to `"N/A"` when absent (in particular `"N/A"` when neither field
is present). -/
theorem format_results_structure (entries : List (String × PyVal))
    (items : List PyVal) (out : String)
    (hdata : dictGet entries "data" = some (.list items))
    (hne : items ≠ [])
    (hok : format_search_results (.dict entries) = .ok out) :
    (∃ bs : List (List String),
      bs.length = items.length ∧
      out = String.intercalate "\n"
        (("Found " ++ toString items.length ++ " results:\n") :: bs.flatten) ∧
      (∃ rest, out = ("Found " ++ toString items.length ++ " results:\n\n") ++ rest) ∧
      (∀ k, k < items.length →
        ∃ d blk, items.get? k = some (.dict d) ∧ bs.get? k = some blk ∧
          _format_item (1 + k) (.dict d) = .ok blk ∧
          (∃ tl, blk.get? 0 = some (toString (1 + k) ++ ". **" ++ tl)) ∧
          blk.get? 1 = some ("   - TVDB ID: " ++ pyStr (tvdb_idOf d)))) ∧
    (∀ (d : List (String × PyVal)) v, dictGet d "tvdb_id" = some v → v.truthy = true →
      tvdb_idOf d = v) ∧
    (∀ (d : List (String × PyVal)) v, dictGet d "tvdb_id" = some v → v.truthy = false →
      tvdb_idOf d = (dictGet d "id").getD (.str "N/A")) ∧
    (∀ d : List (String × PyVal), dictGet d "tvdb_id" = none → dictGet d "id" = none →
      tvdb_idOf d = .str "N/A") := by
  refine ⟨?_, ?_, ?_, ?_⟩
  · -- structural part
    have hentne : entries ≠ [] := by
      intro h; subst h; simp [dictGet] at hdata
    rcases entries with _ | ⟨e0, es⟩
    · exact absurd rfl hentne
    rcases items with _ | ⟨i0, is⟩
    · exact absurd rfl hne
    simp only [format_search_results, PyVal.truthy, Bind.bind, Except.bind] at hok
    rw [hdata] at hok
    simp only [List.isEmpty_cons, Bool.not_false, Bool.not_true, Option.getD_some,
      if_true, if_false, ite_true, ite_false] at hok
    rcases hfi : formatItems 1 (i0 :: is) with e | ls <;> rw [hfi] at hok
    · simp at hok
    rw [if_neg (by decide : ¬(false = true))] at hok
    have hout : out = String.intercalate "\n"
        (("Found " ++ toString (i0 :: is).length ++ " results:\n") :: ls) :=
      (Except.ok.inj hok).symm
    obtain ⟨bs, hlen, hjoin, hk⟩ := formatItems_ok_decomp (i0 :: is) 1 ls hfi
    refine ⟨bs, hlen, by rw [hout, hjoin], ?_, ?_⟩
    · -- blank-line prefix
      rcases bs with _ | ⟨b0, bs'⟩
      · simp at hlen
      obtain ⟨item0, blk0, h1, h2, h3⟩ := hk 0 (by simp)
      obtain ⟨d, ty, ov, cs, gs, heq, hty, hov, hcs, hgs, hblk⟩ :=
        _format_item_ok_decomp (1 + 0) item0 blk0 h3
      have hb0 : b0 = blk0 := by
        simpa using h2
      subst hb0
      rw [hblk] at hjoin
      have hflat : (List.flatten ((headerLine (1 + 0) d (pyTitle ty) ::
          idLine d :: (ov ++ cs ++ gs)) :: bs')) =
          headerLine (1 + 0) d (pyTitle ty) ::
            ((idLine d :: (ov ++ cs ++ gs)) ++ List.flatten bs') := by
        simp
      refine ⟨String.intercalate "\n"
        ((idLine d :: (ov ++ cs ++ gs)) ++ List.flatten bs' |>.cons
          (headerLine (1 + 0) d (pyTitle ty))), ?_⟩
      rw [hout, hjoin, hflat, intercalate_cons₂]
      rw [show ("Found " ++ toString (i0 :: is).length ++ " results:\n") ++ "\n" =
        "Found " ++ toString (i0 :: is).length ++ " results:\n\n" by
          rw [String.append_assoc]; rfl]
    · -- entry structure
      intro k hkk
      obtain ⟨item, blk, h1, h2, h3⟩ := hk k hkk
      obtain ⟨d, ty, ov, cs, gs, heq, hty, hov, hcs, hgs, hblk⟩ :=
        _format_item_ok_decomp (1 + k) item blk h3
      subst heq
      refine ⟨d, blk, h1, h2, h3, ?_, ?_⟩
      · obtain ⟨tl, htl⟩ := headerLine_numbered (1 + k) d (pyTitle ty)
        exact ⟨tl, by rw [hblk]; simp [htl]⟩
      · rw [hblk]; rfl
  · intro d v h1 h2
    simp [tvdb_idOf, h1, h2]
  · intro d v h1 h2
    simp [tvdb_idOf, h1, h2]
  · intro d h1 h2
    simp [tvdb_idOf, h1, h2]

/-- Record whose `tvdb_id` is present but falsy (`0`) while `id` is `42`. -/
def ceRecord : List (String × PyVal) :=
  [("name", .str "X"), ("type", .str "series"), ("year", .int 2021),
   ("tvdb_id", .int 0), ("id", .int 42)]

/-- Response wrapping `ceRecord` as its single `data` record. -/
def ceResponse : PyVal := .dict [("data", .list [.dict ceRecord])]

/-- C6 counterexample: both identifier fields are present, yet the ID line
shows `42` (the `id` value), not the first field `tvdb_id` (whose value is
`0`): `item.get("tvdb_id") or item.get("id", "N/A")` falls back on a
present-but-falsy `tvdb_id`. -/
theorem id_line_counterexample :
    dictGet ceRecord "tvdb_id" = some (.int 0) ∧
    dictGet ceRecord "id" = some (.int 42) ∧
    format_search_results ceResponse =
      .ok "Found 1 results:\n\n1. **X** (Series, 2021)\n   - TVDB ID: 42" ∧
    idLine ceRecord = "   - TVDB ID: 42" ∧
    ("   - TVDB ID: 42" : String) ≠ "   - TVDB ID: 0" :=
  ⟨rfl, rfl, rfl, rfl, by decide⟩

/-- Single sample record for the C6 witness. -/
def wItem : PyVal :=
  .dict [("name", .str "Foundation"), ("type", .str "series"),
         ("year", .int 2021), ("tvdb_id", .int 12345)]

/-- Sample record list for the C6 witness. -/
def wItems : List PyVal := [wItem]

/-- Sample response entries for the C6 witness. -/
def wEntries : List (String × PyVal) := [("data", PyVal.list wItems)]

/-- Formatter output on the sample response. -/
def wOut : String :=
  "Found 1 results:\n\n1. **Foundation** (Series, 2021)\n   - TVDB ID: 12345"

/-- Witness for C6 (amended): the sample output starts with the header and a
blank line, and its single block is numbered and carries the truthy
`tvdb_id`. -/
theorem format_results_structure_witness :
    (∃ rest, wOut = ("Found " ++ toString wItems.length ++ " results:\n\n") ++ rest) ∧
    tvdb_idOf [("tvdb_id", .int 12345), ("id", .int 7)] = .int 12345 := by
  obtain ⟨⟨bs, hlen, hout, hpre, hk⟩, hid, _, _⟩ :=
    format_results_structure wEntries wItems wOut rfl (by simp [wItems]) rfl
  exact ⟨hpre, hid [("tvdb_id", .int 12345), ("id", .int 7)] (.int 12345) rfl rfl⟩
